import Mathlib

/-
Shallow embedding of `src/project3.py` (김포시 교통 환경 분석 시스템, a
Streamlit dashboard) and proofs about its scoring and comparison logic.

Modelling conventions:
* Python floats are modelled as exact rationals (`ℚ`).
* The float `NaN` that pandas produces — from the `0/0` of a min-max
  normalization over a column whose `max` equals its `min` (lines 33-35), or
  from an empty CSV cell — is modelled as `none : Option ℚ`; every arithmetic
  operation propagates it.
* An exception that the script does not catch (pandas `KeyError`/`TypeError`
  during scoring, `IndexError` from `.iloc[0]` on an empty selection) is
  modelled as `Except.error`; the script has no handler for any of these.
-/

namespace Gimpo

/-- One data row of the uploaded CSV: 지역 (region name), 평균_통행_속도
(average travel speed), 대중교통_노선_수 (transit route count),
교통사고_건수_10만명당 (accidents per 100k). -/
structure Row where
  region : String
  speed : ℚ
  transit : ℚ
  accidents : ℚ

/-- pandas `Series.min()` over a column. The value returned on an empty
column is irrelevant: the elementwise normalization maps over no elements
there. -/
def colMinD : List ℚ → ℚ
  | [] => 0
  | v :: vs => vs.foldl min v

/-- pandas `Series.max()` over a column. -/
def colMaxD : List ℚ → ℚ
  | [] => 0
  | v :: vs => vs.foldl max v

/-- Elementwise ascending-good normalization
`(v - df[c].min()) / (df[c].max() - df[c].min()) * 100` (lines 33-34 of
`calculate_traffic_score`). When `max - min = 0` the float computation is
`0/0 = NaN` (the numerator is also `0` since every value equals the min),
modelled as `none`. -/
def normAscCell (c : List ℚ) (v : ℚ) : Option ℚ :=
  if colMaxD c - colMinD c = 0 then none
  else some ((v - colMinD c) / (colMaxD c - colMinD c) * 100)

/-- Elementwise descending-good normalization
`(df[c].max() - v) / (df[c].max() - df[c].min()) * 100` (line 35, used for
the accident column). `NaN` on a degenerate column, as above. -/
def normDescCell (c : List ℚ) (v : ℚ) : Option ℚ :=
  if colMaxD c - colMinD c = 0 then none
  else some ((colMaxD c - v) / (colMaxD c - colMinD c) * 100)

/-- Whole-column form of line 33/34: the normalized column. -/
def normAsc (c : List ℚ) : List (Option ℚ) := c.map (normAscCell c)

/-- Whole-column form of line 35: the normalized accident column. -/
def normDesc (c : List ℚ) : List (Option ℚ) := c.map (normDescCell c)

/-- The fixed weight dict of `calculate_traffic_score` (lines 27-31). -/
structure Weights where
  speed : ℚ
  transit : ℚ
  safety : ℚ

/-- `weights = {'평균_통행_속도': 0.4, '대중교통_노선_수': 0.3,
'교통사고_건수_10만명당': 0.3}`. -/
def weights : Weights := { speed := 4/10, transit := 3/10, safety := 3/10 }

/-- Lines 37-41: `교통_환경_점수`, the weighted sum of the three normalized
values; float `NaN` in any operand propagates to the result. -/
def weightedScore (ns nt na : Option ℚ) : Option ℚ :=
  match ns, nt, na with
  | some a, some b, some c =>
      some (a * weights.speed + b * weights.transit + c * weights.safety)
  | _, _, _ => none

/-- A row of the dataframe after `calculate_traffic_score`: the raw fields
plus 정규화_평균_통행_속도, 정규화_대중교통_노선_수, 정규화_교통사고_건수 and
교통_환경_점수. -/
structure ScoredRow where
  region : String
  speed : ℚ
  transit : ℚ
  accidents : ℚ
  norm_speed : Option ℚ
  norm_transit : Option ℚ
  norm_safety : Option ℚ
  traffic_score : Option ℚ

/-- Scoring of one row against the three whole columns. -/
def scoreRow (sc tc ac : List ℚ) (r : Row) : ScoredRow :=
  { region := r.region, speed := r.speed, transit := r.transit,
    accidents := r.accidents,
    norm_speed := normAscCell sc r.speed,
    norm_transit := normAscCell tc r.transit,
    norm_safety := normDescCell ac r.accidents,
    traffic_score := weightedScore (normAscCell sc r.speed)
      (normAscCell tc r.transit) (normDescCell ac r.accidents) }

/-- `calculate_traffic_score` (lines 26-43): normalizes the speed and transit
columns ascending-good, the accident column descending-good, and combines
them with weights 0.4 / 0.3 / 0.3. -/
def calculate_traffic_score (df : List Row) : List ScoredRow :=
  df.map (scoreRow (df.map Row.speed) (df.map Row.transit)
    (df.map Row.accidents))

/-! The 내 거주 지역 비교 section (lines 97-118). -/

/-- One column of `gimpo_avg = df.mean(numeric_only=True)` (line 102): the
arithmetic mean over all rows. -/
def colMean (c : List ℚ) : ℚ := c.sum / c.length

/-- Mean of 평균_통행_속도 over every row of the scored table. -/
def gimpo_avg_speed (df : List ScoredRow) : ℚ :=
  colMean (df.map ScoredRow.speed)

/-- Mean of 대중교통_노선_수 over every row of the scored table. -/
def gimpo_avg_transit (df : List ScoredRow) : ℚ :=
  colMean (df.map ScoredRow.transit)

/-- Mean of 교통사고_건수_10만명당 over every row of the scored table. -/
def gimpo_avg_accidents (df : List ScoredRow) : ℚ :=
  colMean (df.map ScoredRow.accidents)

/-- Line 101, `df[df['지역'] == user_location].iloc[0]`: the first row of the
filtered frame. `none` models the `IndexError` that `.iloc[0]` raises when
the selection is empty; the script has no guard or handler for it. -/
def user_data (df : List ScoredRow) (loc : String) : Option ScoredRow :=
  (df.filter (fun r => r.region == loc)).head?

/-- Line 116: `"높습니다" if diff > 0 else "낮습니다" if diff < 0 else
"같습니다"` — exact comparison, no tolerance. -/
def direction (diff : ℚ) : String :=
  if diff > 0 then "높습니다" else if diff < 0 then "낮습니다" else "같습니다"

/-- One line of the comparison loop (lines 108-118). -/
structure CompareLine where
  metric : String
  user_val : ℚ
  avg_val : ℚ
  diff : ℚ
  label : String

/-- The comparison loop body for the three raw metric columns, for the
selected row `r` of the scored table `df`. -/
def compareLines (df : List ScoredRow) (r : ScoredRow) : List CompareLine :=
  [ { metric := "평균_통행_속도", user_val := r.speed,
      avg_val := gimpo_avg_speed df, diff := r.speed - gimpo_avg_speed df,
      label := direction (r.speed - gimpo_avg_speed df) },
    { metric := "대중교통_노선_수", user_val := r.transit,
      avg_val := gimpo_avg_transit df,
      diff := r.transit - gimpo_avg_transit df,
      label := direction (r.transit - gimpo_avg_transit df) },
    { metric := "교통사고_건수_10만명당", user_val := r.accidents,
      avg_val := gimpo_avg_accidents df,
      diff := r.accidents - gimpo_avg_accidents df,
      label := direction (r.accidents - gimpo_avg_accidents df) } ]

/-- The body of `if user_location != '선택':` (lines 100-118). The lookup of
line 101 is unguarded, so a name matching no row makes the script run abort
with an uncaught `IndexError` (`Except.error`); there is no recovery code. -/
def comparisonBlock (df : List ScoredRow) (loc : String) :
    Except String (List CompareLine) :=
  match user_data df loc with
  | none => Except.error "IndexError"
  | some r => Except.ok (compareLines df r)

/-! The parsed CSV before scoring, for the failure analysis of
`calculate_traffic_score` as the script invokes it (lines 54-57). -/

/-- One CSV cell as pandas parses it: a numeric entry, a non-numeric text
entry (which turns the whole column into object dtype), or an empty field
(parsed as float `NaN`). -/
inductive Cell where
  | num (q : ℚ)
  | txt (s : String)
  | na

/-- True on a non-numeric text entry. -/
def isText : Cell → Bool
  | .txt _ => true
  | _ => false

/-- Numeric entries of a column; pandas `min`/`max` skip `NaN`
(`skipna=True` default). -/
def numsOf (c : List Cell) : List ℚ :=
  c.filterMap (fun x => match x with | .num q => some q | _ => none)

/-- Line 33/34 over a raw column: a `NaN` cell stays `NaN`. -/
def normAscCellRaw (c : List Cell) : Cell → Option ℚ
  | .num v => normAscCell (numsOf c) v
  | _ => none

/-- Line 35 over a raw column. -/
def normDescCellRaw (c : List Cell) : Cell → Option ℚ
  | .num v => normDescCell (numsOf c) v
  | _ => none

/-- A parsed dataframe. A metric field of `none` means the CSV header lacks
that column, so `df[name]` raises `KeyError`. -/
structure RawFrame where
  region : List String
  speedCol : Option (List Cell)
  transitCol : Option (List Cell)
  accidentsCol : Option (List Cell)

/-- Column access plus the arithmetic of lines 33-35: `df[name]` on an absent
column raises `KeyError`, and subtracting a scalar from an object (text
holding) column raises `TypeError`; both are uncaught. -/
def getColumn (name : String) : Option (List Cell) → Except String (List Cell)
  | none => Except.error ("KeyError: " ++ name)
  | some c =>
      if c.any isText then Except.error ("TypeError: " ++ name)
      else Except.ok c

/-- `calculate_traffic_score` as invoked on the parsed frame: the per-row
교통_환경_점수 column, or the uncaught exception. A `NaN` cell gives that row
a `NaN` score without any failure. -/
def calculate_traffic_score_checked (f : RawFrame) :
    Except String (List (Option ℚ)) := do
  let sc ← getColumn "평균_통행_속도" f.speedCol
  let tc ← getColumn "대중교통_노선_수" f.transitCol
  let ac ← getColumn "교통사고_건수_10만명당" f.accidentsCol
  Except.ok ((sc.zip (tc.zip ac)).map (fun p =>
    weightedScore (normAscCellRaw sc p.1) (normAscCellRaw tc p.2.1)
      (normDescCellRaw ac p.2.2)))

/-- The script's guard (line 56): scoring and rendering run only under
`if not df.empty:`; on an empty frame (`none`) a warning is shown instead
and `calculate_traffic_score` is never invoked. -/
def pipeline (f : RawFrame) : Option (Except String (List (Option ℚ))) :=
  if f.region.length = 0 then none else some (calculate_traffic_score_checked f)

/-! Concrete datasets used as witnesses and counterexamples. A `Row`
lists region, 평균_통행_속도, 대중교통_노선_수, 교통사고_건수_10만명당. -/

/-- The two-region dataset of the specification's worked example:
A = (30, 5, 10), B = (60, 15, 2). -/
def exampleDF : List Row :=
  [⟨"A", 30, 5, 10⟩, ⟨"B", 60, 15, 2⟩]

/-- A non-empty, finite, numeric dataset whose speed column is degenerate
(both values 50): A = (50, 1, 10), B = (50, 2, 2). -/
def constSpeedDF : List Row :=
  [⟨"A", 50, 1, 10⟩, ⟨"B", 50, 2, 2⟩]

/-- A scored row used in the comparison witnesses (the normalized fields play
no role in the comparison block, which reads only the raw columns). -/
def rowA : ScoredRow := ⟨"A", 30, 5, 10, none, none, none, none⟩

/-- A second scored row for the comparison witnesses. -/
def rowB : ScoredRow := ⟨"B", 60, 15, 2, none, none, none, none⟩

end Gimpo

namespace Gimpo

/-! Helper lemmas about column minima and maxima. -/

theorem foldl_min_le_init (l : List ℚ) : ∀ a : ℚ, l.foldl min a ≤ a := by
  induction l with
  | nil => intro a; simp
  | cons x xs ih =>
      intro a
      exact le_trans (ih (min a x)) (min_le_left a x)

theorem foldl_min_le_mem (l : List ℚ) : ∀ a v : ℚ, v ∈ l → l.foldl min a ≤ v := by
  induction l with
  | nil => intro a v hv; cases hv
  | cons x xs ih =>
      intro a v hv
      rcases List.mem_cons.1 hv with h | h
      · subst h
        exact le_trans (foldl_min_le_init xs (min a v)) (min_le_right a v)
      · exact ih (min a x) v h

theorem init_le_foldl_max (l : List ℚ) : ∀ a : ℚ, a ≤ l.foldl max a := by
  induction l with
  | nil => intro a; simp
  | cons x xs ih =>
      intro a
      exact le_trans (le_max_left a x) (ih (max a x))

theorem mem_le_foldl_max (l : List ℚ) : ∀ a v : ℚ, v ∈ l → v ≤ l.foldl max a := by
  induction l with
  | nil => intro a v hv; cases hv
  | cons x xs ih =>
      intro a v hv
      rcases List.mem_cons.1 hv with h | h
      · subst h
        exact le_trans (le_max_right a v) (init_le_foldl_max xs (max a v))
      · exact ih (max a x) v h

theorem colMinD_le_mem {c : List ℚ} {v : ℚ} (hv : v ∈ c) : colMinD c ≤ v := by
  cases c with
  | nil => cases hv
  | cons x xs =>
      rcases List.mem_cons.1 hv with h | h
      · subst h; exact foldl_min_le_init xs v
      · exact foldl_min_le_mem xs x v h

theorem mem_le_colMaxD {c : List ℚ} {v : ℚ} (hv : v ∈ c) : v ≤ colMaxD c := by
  cases c with
  | nil => cases hv
  | cons x xs =>
      rcases List.mem_cons.1 hv with h | h
      · subst h; exact init_le_foldl_max xs v
      · exact mem_le_foldl_max xs x v h

theorem colMinD_le_colMaxD {c : List ℚ} (hc : c ≠ []) : colMinD c ≤ colMaxD c := by
  cases c with
  | nil => exact absurd rfl hc
  | cons x xs =>
      exact le_trans (foldl_min_le_init xs x) (init_le_foldl_max xs x)

theorem colMinD_lt_colMaxD {c : List ℚ} (hd : colMinD c ≠ colMaxD c) :
    colMinD c < colMaxD c := by
  have hc : c ≠ [] := by
    intro h
    subst h
    exact hd rfl
  exact lt_of_le_of_ne (colMinD_le_colMaxD hc) hd

theorem foldl_min_const (l : List ℚ) (a : ℚ) (h : ∀ v ∈ l, v = a) :
    l.foldl min a = a := by
  induction l with
  | nil => rfl
  | cons x xs ih =>
      have hx : x = a := h x (List.mem_cons_self x xs)
      subst hx
      simp only [List.foldl_cons, min_self]
      exact ih (fun v hv => h v (List.mem_cons_of_mem x hv))

theorem foldl_max_const (l : List ℚ) (a : ℚ) (h : ∀ v ∈ l, v = a) :
    l.foldl max a = a := by
  induction l with
  | nil => rfl
  | cons x xs ih =>
      have hx : x = a := h x (List.mem_cons_self x xs)
      subst hx
      simp only [List.foldl_cons, max_self]
      exact ih (fun v hv => h v (List.mem_cons_of_mem x hv))

theorem colMinD_const {c : List ℚ} {a : ℚ} (hc : c ≠ []) (h : ∀ v ∈ c, v = a) :
    colMinD c = a := by
  cases c with
  | nil => exact absurd rfl hc
  | cons x xs =>
      have hx : x = a := h x (List.mem_cons_self x xs)
      subst hx
      exact foldl_min_const xs x (fun v hv => h v (List.mem_cons_of_mem x hv))

theorem colMaxD_const {c : List ℚ} {a : ℚ} (hc : c ≠ []) (h : ∀ v ∈ c, v = a) :
    colMaxD c = a := by
  cases c with
  | nil => exact absurd rfl hc
  | cons x xs =>
      have hx : x = a := h x (List.mem_cons_self x xs)
      subst hx
      exact foldl_max_const xs x (fun v hv => h v (List.mem_cons_of_mem x hv))

theorem col_sub_ne_zero {c : List ℚ} (hd : colMinD c ≠ colMaxD c) :
    colMaxD c - colMinD c ≠ 0 :=
  sub_ne_zero.2 (Ne.symm hd)

theorem col_sub_pos {c : List ℚ} (hd : colMinD c ≠ colMaxD c) :
    0 < colMaxD c - colMinD c :=
  sub_pos.2 (colMinD_lt_colMaxD hd)

theorem normAscCell_some {c : List ℚ} (v : ℚ) (hd : colMinD c ≠ colMaxD c) :
    normAscCell c v
      = some ((v - colMinD c) / (colMaxD c - colMinD c) * 100) := by
  unfold normAscCell
  rw [if_neg (col_sub_ne_zero hd)]

theorem normDescCell_some {c : List ℚ} (v : ℚ) (hd : colMinD c ≠ colMaxD c) :
    normDescCell c v
      = some ((colMaxD c - v) / (colMaxD c - colMinD c) * 100) := by
  unfold normDescCell
  rw [if_neg (col_sub_ne_zero hd)]

theorem normAsc_val_bounds {c : List ℚ} {v : ℚ} (hv : v ∈ c)
    (hd : colMinD c ≠ colMaxD c) :
    0 ≤ (v - colMinD c) / (colMaxD c - colMinD c) * 100
    ∧ (v - colMinD c) / (colMaxD c - colMinD c) * 100 ≤ 100 := by
  have h0 := col_sub_pos hd
  have h1 : colMinD c ≤ v := colMinD_le_mem hv
  have h2 : v ≤ colMaxD c := mem_le_colMaxD hv
  constructor
  · have hq : 0 ≤ (v - colMinD c) / (colMaxD c - colMinD c) :=
      div_nonneg (sub_nonneg.2 h1) h0.le
    nlinarith
  · have hq : (v - colMinD c) / (colMaxD c - colMinD c) ≤ 1 :=
      (div_le_one h0).2 (by linarith)
    nlinarith

theorem normDesc_val_bounds {c : List ℚ} {v : ℚ} (hv : v ∈ c)
    (hd : colMinD c ≠ colMaxD c) :
    0 ≤ (colMaxD c - v) / (colMaxD c - colMinD c) * 100
    ∧ (colMaxD c - v) / (colMaxD c - colMinD c) * 100 ≤ 100 := by
  have h0 := col_sub_pos hd
  have h1 : colMinD c ≤ v := colMinD_le_mem hv
  have h2 : v ≤ colMaxD c := mem_le_colMaxD hv
  constructor
  · have hq : 0 ≤ (colMaxD c - v) / (colMaxD c - colMinD c) :=
      div_nonneg (sub_nonneg.2 h2) h0.le
    nlinarith
  · have hq : (colMaxD c - v) / (colMaxD c - colMinD c) ≤ 1 :=
      (div_le_one h0).2 (by linarith)
    nlinarith

/-- C2: over a column with at least two distinct values (`min ≠ max`) the
normalization yields a same-length sequence; each element equals
`(v - min) / (max - min) * 100` in the ascending-good direction and
`(max - v) / (max - min) * 100` in the descending-good one, lies in
`[0, 100]`, and the minimum raw value maps to 0 resp. 100 and the maximum to
100 resp. 0. -/
theorem C2_normalize_range (c : List ℚ) (v : ℚ) (hv : v ∈ c)
    (hd : colMinD c ≠ colMaxD c) :
    (normAsc c).length = c.length ∧ (normDesc c).length = c.length
    ∧ normAscCell c v = some ((v - colMinD c) / (colMaxD c - colMinD c) * 100)
    ∧ normDescCell c v
        = some ((colMaxD c - v) / (colMaxD c - colMinD c) * 100)
    ∧ (∀ w, normAscCell c v = some w → 0 ≤ w ∧ w ≤ 100)
    ∧ (∀ w, normDescCell c v = some w → 0 ≤ w ∧ w ≤ 100)
    ∧ (v = colMinD c →
        normAscCell c v = some 0 ∧ normDescCell c v = some 100)
    ∧ (v = colMaxD c →
        normAscCell c v = some 100 ∧ normDescCell c v = some 0) := by
  have hne := col_sub_ne_zero hd
  refine ⟨by simp [normAsc], by simp [normDesc], normAscCell_some v hd,
    normDescCell_some v hd, ?_, ?_, ?_, ?_⟩
  · intro w hw
    rw [normAscCell_some v hd] at hw
    obtain rfl := Option.some.inj hw
    exact normAsc_val_bounds hv hd
  · intro w hw
    rw [normDescCell_some v hd] at hw
    obtain rfl := Option.some.inj hw
    exact normDesc_val_bounds hv hd
  · intro hmin
    constructor
    · rw [normAscCell_some v hd, hmin]
      simp
    · rw [normDescCell_some v hd, hmin, div_self hne]
      norm_num
  · intro hmax
    constructor
    · rw [normAscCell_some v hd, hmax, div_self hne]
      norm_num
    · rw [normDescCell_some v hd, hmax]
      simp

/-- Witness for C2 at the column `[30, 60]` and its element `30`: the
hypotheses hold there and the normalized value follows the formula, with the
minimum mapping to 0 ascending-good and 100 descending-good. -/
theorem C2_normalize_range_witness :
    (30 : ℚ) ∈ [(30 : ℚ), 60]
    ∧ colMinD [(30 : ℚ), 60] ≠ colMaxD [(30 : ℚ), 60]
    ∧ (normAscCell [(30 : ℚ), 60] 30 = some 0
        ∧ normDescCell [(30 : ℚ), 60] 30 = some 100) := by
  have hv : (30 : ℚ) ∈ [(30 : ℚ), 60] := by simp
  have hd : colMinD [(30 : ℚ), 60] ≠ colMaxD [(30 : ℚ), 60] := by
    norm_num [colMinD, colMaxD]
  refine ⟨hv, hd, ?_⟩
  exact (C2_normalize_range [30, 60] 30 hv hd).2.2.2.2.2.2.1
    (by norm_num [colMinD])

/-- C5: on a non-degenerate column, the ascending-good normalization is
strictly increasing in the raw value and the descending-good one (used for
the accident column) is strictly decreasing. -/
theorem C5_monotone (c : List ℚ) (v₁ v₂ : ℚ) (hd : colMinD c ≠ colMaxD c)
    (h12 : v₁ < v₂) :
    (∃ w₁ w₂, normAscCell c v₁ = some w₁ ∧ normAscCell c v₂ = some w₂
      ∧ w₁ < w₂)
    ∧ (∃ w₁ w₂, normDescCell c v₁ = some w₁ ∧ normDescCell c v₂ = some w₂
      ∧ w₂ < w₁) := by
  have h0 := col_sub_pos hd
  have hinv : 0 < (colMaxD c - colMinD c)⁻¹ := inv_pos.2 h0
  refine ⟨⟨_, _, normAscCell_some v₁ hd, normAscCell_some v₂ hd, ?_⟩,
    ⟨_, _, normDescCell_some v₁ hd, normDescCell_some v₂ hd, ?_⟩⟩
  · rw [div_eq_mul_inv, div_eq_mul_inv]
    nlinarith [mul_pos (sub_pos.2 h12) hinv]
  · rw [div_eq_mul_inv, div_eq_mul_inv]
    nlinarith [mul_pos (sub_pos.2 h12) hinv]

/-- Witness for C5 at the column `[30, 60]` and the raw values `30 < 50`. -/
theorem C5_monotone_witness :
    colMinD [(30 : ℚ), 60] ≠ colMaxD [(30 : ℚ), 60] ∧ (30 : ℚ) < 50
    ∧ ((∃ w₁ w₂, normAscCell [(30 : ℚ), 60] 30 = some w₁
          ∧ normAscCell [(30 : ℚ), 60] 50 = some w₂ ∧ w₁ < w₂)
      ∧ (∃ w₁ w₂, normDescCell [(30 : ℚ), 60] 30 = some w₁
          ∧ normDescCell [(30 : ℚ), 60] 50 = some w₂ ∧ w₂ < w₁)) := by
  have hd : colMinD [(30 : ℚ), 60] ≠ colMaxD [(30 : ℚ), 60] := by
    norm_num [colMinD, colMaxD]
  exact ⟨hd, by norm_num, C5_monotone [30, 60] 30 50 hd (by norm_num)⟩

/-- C10: on a non-degenerate column the descending-good normalization equals
100 minus the ascending-good normalization of the same element. -/
theorem C10_desc_complement (c : List ℚ) (v : ℚ)
    (hd : colMinD c ≠ colMaxD c) :
    normDescCell c v = (normAscCell c v).map (fun w => 100 - w)
    ∧ ∀ w, normAscCell c v = some w → normDescCell c v = some (100 - w) := by
  have hne := col_sub_ne_zero hd
  have key : (colMaxD c - v) / (colMaxD c - colMinD c) * 100
      = 100 - (v - colMinD c) / (colMaxD c - colMinD c) * 100 := by
    field_simp
    ring
  constructor
  · rw [normAscCell_some v hd, normDescCell_some v hd]
    simp [key]
  · intro w hw
    rw [normAscCell_some v hd] at hw
    obtain rfl := Option.some.inj hw
    rw [normDescCell_some v hd, key]

theorem weighted_bounds {a b c : ℚ} (ha0 : 0 ≤ a) (ha1 : a ≤ 100)
    (hb0 : 0 ≤ b) (hb1 : b ≤ 100) (hc0 : 0 ≤ c) (hc1 : c ≤ 100) :
    0 ≤ a * weights.speed + b * weights.transit + c * weights.safety
    ∧ a * weights.speed + b * weights.transit + c * weights.safety ≤ 100 := by
  have e1 : weights.speed = 4 / 10 := rfl
  have e2 : weights.transit = 3 / 10 := rfl
  have e3 : weights.safety = 3 / 10 := rfl
  rw [e1, e2, e3]
  constructor <;> linarith

theorem weightedScore_none₁ (x y : Option ℚ) :
    weightedScore none x y = none := by
  cases x <;> cases y <;> rfl

/-- C1 (amended): for a dataset whose three raw metric columns each hold at
least two distinct values, every scored row's 교통_환경_점수 is the weighted
sum of the three normalized values with the fixed weights 0.4 / 0.3 / 0.3 and
lies in `[0, 100]`. (Without the distinctness proviso the claim fails: a
degenerate column makes every score NaN, see the counterexample.) -/
theorem C1_traffic_score (df : List Row)
    (hs : colMinD (df.map Row.speed) ≠ colMaxD (df.map Row.speed))
    (ht : colMinD (df.map Row.transit) ≠ colMaxD (df.map Row.transit))
    (ha : colMinD (df.map Row.accidents) ≠ colMaxD (df.map Row.accidents)) :
    weights.speed = 4 / 10 ∧ weights.transit = 3 / 10
    ∧ weights.safety = 3 / 10
    ∧ ∀ r ∈ calculate_traffic_score df, ∃ ns nt na,
        r.norm_speed = some ns ∧ r.norm_transit = some nt
        ∧ r.norm_safety = some na
        ∧ r.traffic_score = some (ns * weights.speed + nt * weights.transit
            + na * weights.safety)
        ∧ (0 ≤ ns * weights.speed + nt * weights.transit + na * weights.safety
            ∧ ns * weights.speed + nt * weights.transit + na * weights.safety
              ≤ 100) := by
  refine ⟨rfl, rfl, rfl, ?_⟩
  intro r hr
  obtain ⟨row, hrow, rfl⟩ := List.mem_map.1 hr
  have hvs : row.speed ∈ df.map Row.speed := List.mem_map_of_mem _ hrow
  have hvt : row.transit ∈ df.map Row.transit := List.mem_map_of_mem _ hrow
  have hva : row.accidents ∈ df.map Row.accidents :=
    List.mem_map_of_mem _ hrow
  obtain ⟨hs0, hs1⟩ := normAsc_val_bounds hvs hs
  obtain ⟨ht0, ht1⟩ := normAsc_val_bounds hvt ht
  obtain ⟨ha0, ha1⟩ := normDesc_val_bounds hva ha
  simp only [scoreRow]
  refine ⟨_, _, _, normAscCell_some _ hs, normAscCell_some _ ht,
    normDescCell_some _ ha, ?_, ?_⟩
  · rw [normAscCell_some _ hs, normAscCell_some _ ht, normDescCell_some _ ha]
    rfl
  · exact weighted_bounds hs0 hs1 ht0 ht1 ha0 ha1

/-- Witness for C1 at the dataset `exampleDF` of the specification's worked
example: A = (30, 5, 10), B = (60, 15, 2). -/
theorem C1_traffic_score_witness :
    (colMinD (exampleDF.map Row.speed) ≠ colMaxD (exampleDF.map Row.speed))
    ∧ ∀ r ∈ calculate_traffic_score exampleDF,
        ∃ ns nt na,
          r.norm_speed = some ns ∧ r.norm_transit = some nt
          ∧ r.norm_safety = some na
          ∧ r.traffic_score = some (ns * weights.speed
              + nt * weights.transit + na * weights.safety)
          ∧ (0 ≤ ns * weights.speed + nt * weights.transit
                + na * weights.safety
              ∧ ns * weights.speed + nt * weights.transit
                + na * weights.safety ≤ 100) := by
  refine ⟨by norm_num [exampleDF, colMinD, colMaxD], ?_⟩
  exact (C1_traffic_score exampleDF
    (by norm_num [exampleDF, colMinD, colMaxD])
    (by norm_num [exampleDF, colMinD, colMaxD])
    (by norm_num [exampleDF, colMinD, colMaxD])).2.2.2

/-- C1 counterexample: `constSpeedDF` is non-empty with finite numeric metric
columns, yet its speed column is degenerate (both values 50), so the float
computation of line 33 is `0/0 = NaN` and every 교통_환경_점수 is NaN — not a
value in `[0, 100]` as the claim states. -/
theorem C1_counterexample :
    ((calculate_traffic_score constSpeedDF).map ScoredRow.traffic_score
      = [none, none])
    ∧ ¬ ∀ r ∈ calculate_traffic_score constSpeedDF,
        ∃ q, r.traffic_score = some q ∧ 0 ≤ q ∧ q ≤ 100 := by
  have heval : (calculate_traffic_score constSpeedDF).map
      ScoredRow.traffic_score = [none, none] := by
    norm_num [constSpeedDF, calculate_traffic_score, scoreRow, normAscCell,
      normDescCell, colMinD, colMaxD, weightedScore]
  refine ⟨heval, ?_⟩
  intro h
  have hne : calculate_traffic_score constSpeedDF ≠ [] := by
    intro h0
    rw [h0] at heval
    simp at heval
  obtain ⟨r, hr⟩ := List.exists_mem_of_ne_nil _ hne
  obtain ⟨q, hq, -, -⟩ := h r hr
  have hmem : r.traffic_score ∈ [(none : Option ℚ), none] :=
    heval ▸ List.mem_map_of_mem _ hr
  rw [hq] at hmem
  simp at hmem

/-- C3 (amended): when all values of the speed column are identical the code
divides `0` by `0` on line 33: every 정규화_평균_통행_속도 of the scored
table — and with it every 교통_환경_점수 — is NaN, not the constant 100.
(The transit and accident columns of lines 34-35 behave symmetrically.) -/
theorem C3_degenerate_nan (df : List Row) (a : ℚ)
    (h : ∀ r ∈ df, r.speed = a) :
    (calculate_traffic_score df).map ScoredRow.norm_speed
      = List.replicate df.length none
    ∧ (calculate_traffic_score df).map ScoredRow.traffic_score
      = List.replicate df.length none := by
  rcases eq_or_ne df [] with rfl | hne
  · simp [calculate_traffic_score]
  · have hcol : ∀ v ∈ df.map Row.speed, v = a := by
      intro v hv
      obtain ⟨r, hr, rfl⟩ := List.mem_map.1 hv
      exact h r hr
    have hc : df.map Row.speed ≠ [] := by
      simpa [List.map_eq_nil_iff] using hne
    have hmin : colMinD (df.map Row.speed) = a := colMinD_const hc hcol
    have hmax : colMaxD (df.map Row.speed) = a := colMaxD_const hc hcol
    have hnone : ∀ v, normAscCell (df.map Row.speed) v = none := by
      intro v
      unfold normAscCell
      rw [hmin, hmax, if_pos (sub_self a)]
    constructor
    · rw [List.eq_replicate_iff]
      refine ⟨by simp [calculate_traffic_score], ?_⟩
      intro b hb
      obtain ⟨r, hr, rfl⟩ := List.mem_map.1 hb
      obtain ⟨row, hrow, rfl⟩ := List.mem_map.1 hr
      simp [scoreRow, hnone]
    · rw [List.eq_replicate_iff]
      refine ⟨by simp [calculate_traffic_score], ?_⟩
      intro b hb
      obtain ⟨r, hr, rfl⟩ := List.mem_map.1 hb
      obtain ⟨row, hrow, rfl⟩ := List.mem_map.1 hr
      simp [scoreRow, hnone, weightedScore_none₁]

/-- Witness for C3 at the dataset `constSpeedDF`, whose speed column is
constant (both values 50). -/
theorem C3_degenerate_nan_witness :
    (∀ r ∈ constSpeedDF, Row.speed r = 50)
    ∧ (calculate_traffic_score constSpeedDF).map ScoredRow.norm_speed
      = List.replicate constSpeedDF.length none := by
  have hconst : ∀ r ∈ constSpeedDF, Row.speed r = 50 := by
    intro r hr
    rcases List.mem_cons.1 hr with h | h
    · rw [h]
    · rw [List.mem_singleton.1 h]
  exact ⟨hconst, (C3_degenerate_nan constSpeedDF 50 hconst).1⟩

/-- C3 counterexample: on the dataset `constSpeedDF`, whose speed column is
constant, the normalized speed of every row is NaN (`none`) — the claim that
it equals 100 for every element is false. -/
theorem C3_counterexample :
    ((calculate_traffic_score constSpeedDF).map ScoredRow.norm_speed
      = [none, none])
    ∧ ¬ ∀ r ∈ calculate_traffic_score constSpeedDF,
        r.norm_speed = some 100 := by
  have heval : (calculate_traffic_score constSpeedDF).map
      ScoredRow.norm_speed = [none, none] := by
    norm_num [constSpeedDF, calculate_traffic_score, scoreRow, normAscCell,
      normDescCell, colMinD, colMaxD]
  refine ⟨heval, ?_⟩
  intro h
  have hne : calculate_traffic_score constSpeedDF ≠ [] := by
    intro h0
    rw [h0] at heval
    simp at heval
  obtain ⟨r, hr⟩ := List.exists_mem_of_ne_nil _ hne
  have hmem : r.norm_speed ∈ [(none : Option ℚ), none] :=
    heval ▸ List.mem_map_of_mem _ hr
  rw [h r hr] at hmem
  simp at hmem

/-- Witness for C10 at the column `[30, 60]` and the element `40`. -/
theorem C10_desc_complement_witness :
    colMinD [(30 : ℚ), 60] ≠ colMaxD [(30 : ℚ), 60]
    ∧ normDescCell [(30 : ℚ), 60] 40
        = (normAscCell [(30 : ℚ), 60] 40).map (fun w => 100 - w) := by
  have hd : colMinD [(30 : ℚ), 60] ≠ colMaxD [(30 : ℚ), 60] := by
    norm_num [colMinD, colMaxD]
  exact ⟨hd, (C10_desc_complement [30, 60] 40 hd).1⟩

theorem direction_iff (d : ℚ) :
    (direction d = "높습니다" ↔ 0 < d)
    ∧ (direction d = "낮습니다" ↔ d < 0)
    ∧ (direction d = "같습니다" ↔ d = 0) := by
  unfold direction
  split_ifs with h1 h2
  · exact ⟨by simpa using h1, by simp [not_lt.2 h1.le], by simp [h1.ne']⟩
  · exact ⟨by simp [h1], by simpa using h2, by simp [h2.ne]⟩
  · have h0 : d = 0 := le_antisymm (not_lt.1 h1) (not_lt.1 h2)
    exact ⟨by simp [h1], by simp [h2], by simpa using h0⟩

/-- C6: every line of the comparison block for an existing region is labelled
높습니다 ("higher") exactly when user value minus dataset mean is positive,
낮습니다 ("lower") exactly when it is negative, and 같습니다 ("equal")
exactly when it is zero — by exact comparison, with no tolerance epsilon. -/
theorem C6_direction_labels (df : List ScoredRow) (r : ScoredRow) :
    (compareLines df r).Forall (fun line =>
      line.diff = line.user_val - line.avg_val
      ∧ (line.label = "높습니다" ↔ 0 < line.diff)
      ∧ (line.label = "낮습니다" ↔ line.diff < 0)
      ∧ (line.label = "같습니다" ↔ line.diff = 0)) :=
  ⟨⟨rfl, direction_iff _⟩, ⟨rfl, direction_iff _⟩, rfl, direction_iff _⟩

theorem sum_map_sub_const (c : List ℚ) (m : ℚ) :
    (c.map (fun v => v - m)).sum = c.sum - c.length * m := by
  induction c with
  | nil => simp
  | cons x xs ih =>
      simp only [List.map_cons, List.sum_cons, List.length_cons, ih]
      push_cast
      ring

theorem sum_sub_colMean (c : List ℚ) (hc : c ≠ []) :
    (c.map (fun v => v - colMean c)).sum = 0 := by
  have hl : (c.length : ℚ) ≠ 0 :=
    Nat.cast_ne_zero.2 (fun h => hc (List.length_eq_zero.1 h))
  rw [sum_map_sub_const, colMean]
  field_simp

/-- C7: the dataset means of the comparison block are arithmetic means over
all rows of the scored table — the selected region's row included — and for
each of the three metrics the deviations from the mean sum to zero. -/
theorem C7_mean_deviations (df : List ScoredRow) (h : df ≠ []) :
    gimpo_avg_speed df = (df.map ScoredRow.speed).sum / df.length
    ∧ gimpo_avg_transit df = (df.map ScoredRow.transit).sum / df.length
    ∧ gimpo_avg_accidents df = (df.map ScoredRow.accidents).sum / df.length
    ∧ (df.map (fun r => r.speed - gimpo_avg_speed df)).sum = 0
    ∧ (df.map (fun r => r.transit - gimpo_avg_transit df)).sum = 0
    ∧ (df.map (fun r => r.accidents - gimpo_avg_accidents df)).sum = 0 := by
  have hs : df.map ScoredRow.speed ≠ [] := by
    simpa [List.map_eq_nil_iff] using h
  have ht : df.map ScoredRow.transit ≠ [] := by
    simpa [List.map_eq_nil_iff] using h
  have ha : df.map ScoredRow.accidents ≠ [] := by
    simpa [List.map_eq_nil_iff] using h
  refine ⟨by simp [gimpo_avg_speed, colMean],
    by simp [gimpo_avg_transit, colMean],
    by simp [gimpo_avg_accidents, colMean], ?_, ?_, ?_⟩
  · have hz := sum_sub_colMean (df.map ScoredRow.speed) hs
    rw [List.map_map] at hz
    exact hz
  · have hz := sum_sub_colMean (df.map ScoredRow.transit) ht
    rw [List.map_map] at hz
    exact hz
  · have hz := sum_sub_colMean (df.map ScoredRow.accidents) ha
    rw [List.map_map] at hz
    exact hz

/-- Witness for C7 at the two-row scored table `[rowA, rowB]` (speeds 30 and
60, transits 5 and 15, accidents 10 and 2). -/
theorem C7_mean_deviations_witness :
    [rowA, rowB] ≠ ([] : List ScoredRow)
    ∧ ([rowA, rowB].map (fun r => ScoredRow.speed r
        - gimpo_avg_speed [rowA, rowB])).sum = 0 := by
  have h : [rowA, rowB] ≠ ([] : List ScoredRow) := by simp
  exact ⟨h, (C7_mean_deviations [rowA, rowB] h).2.2.2.1⟩

theorem head?_filter_eq_find? (p : ScoredRow → Bool) (l : List ScoredRow) :
    (l.filter p).head? = l.find? p := by
  induction l with
  | nil => rfl
  | cons x xs ih =>
      by_cases hx : p x
      · simp [List.filter_cons, hx, List.find?_cons_of_pos]
      · simp [List.filter_cons, hx, List.find?_cons_of_neg, ih]

theorem user_data_eq_find? (df : List ScoredRow) (loc : String) :
    user_data df loc = df.find? (fun r => r.region == loc) :=
  head?_filter_eq_find? _ df

/-- C9 (amended): the region lookup of line 101 takes the first matching row
(so the first match when the name is duplicated); when no row matches, the
unguarded `.iloc[0]` raises an uncaught IndexError — there is no
RegionNotFound handling and no defensive recovery in the script. -/
theorem C9_region_lookup (df : List ScoredRow) (loc : String) :
    user_data df loc = df.find? (fun r => r.region == loc)
    ∧ ((∃ e, comparisonBlock df loc = Except.error e)
        ↔ ∀ r ∈ df, ¬ r.region = loc) := by
  refine ⟨user_data_eq_find? df loc, ?_, ?_⟩
  · rintro ⟨e, he⟩
    intro r hr hloc
    unfold comparisonBlock at he
    cases hu : user_data df loc with
    | none =>
        rw [user_data_eq_find?] at hu
        have hfr := List.find?_eq_none.1 hu r hr
        simp [hloc] at hfr
    | some rr =>
        rw [hu] at he
        exact absurd he (by simp)
  · intro hall
    have hnone : user_data df loc = none := by
      rw [user_data_eq_find?]
      refine List.find?_eq_none.2 ?_
      intro r hr
      simpa using hall r hr
    refine ⟨"IndexError", ?_⟩
    unfold comparisonBlock
    rw [hnone]

/-- C9 counterexample: looking up the name "없음", which matches no row of
the table `[rowA]`, aborts the script run with the uncaught IndexError of
`.iloc[0]` on an empty selection — not a defensively defined RegionNotFound
recovered by omitting the comparison block. -/
theorem C9_counterexample :
    comparisonBlock [rowA] "없음" = Except.error "IndexError" := by
  rfl

theorem error_bind {α β : Type} (e : String) (f : α → Except String β) :
    (Except.error e : Except String α) >>= f = Except.error e := rfl

theorem ok_bind {α β : Type} (a : α) (f : α → Except String β) :
    (Except.ok a : Except String α) >>= f = f a := rfl

theorem getColumn_none (name : String) :
    getColumn name none = Except.error ("KeyError: " ++ name) := rfl

theorem getColumn_some_text {c : List Cell} (name : String)
    (h : c.any isText = true) :
    getColumn name (some c) = Except.error ("TypeError: " ++ name) := by
  simp only [getColumn]
  rw [if_pos h]

theorem getColumn_some_ok {c : List Cell} (name : String)
    (h : c.any isText = false) :
    getColumn name (some c) = Except.ok c := by
  simp only [getColumn]
  rw [if_neg (by simp [h])]

/-- C8 (amended): as invoked by the script, scoring fails — with an uncaught
pandas KeyError/TypeError, no error called InvalidDataset exists — exactly
when a required metric column is absent from the CSV header or contains a
non-numeric text entry. A missing (NaN) value in a row does not fail: that
row's score is NaN. An empty dataset does not make scoring fail either: the
`if not df.empty:` guard of line 56 skips scoring and shows a warning. -/
theorem C8_failure_conditions (f : RawFrame) :
    ((∃ e, calculate_traffic_score_checked f = Except.error e)
      ↔ (f.speedCol = none ∨ f.transitCol = none ∨ f.accidentsCol = none
         ∨ (∃ c, f.speedCol = some c ∧ c.any isText = true)
         ∨ (∃ c, f.transitCol = some c ∧ c.any isText = true)
         ∨ (∃ c, f.accidentsCol = some c ∧ c.any isText = true)))
    ∧ (pipeline f = none ↔ f.region = []) := by
  obtain ⟨reg, scol, tcol, acol⟩ := f
  constructor
  · rcases scol with _ | sc
    · simp [calculate_traffic_score_checked, getColumn_none, error_bind]
    · rcases hts : sc.any isText with _ | _
      · rcases tcol with _ | tc
        · simp [calculate_traffic_score_checked, getColumn_none,
            getColumn_some_ok _ hts, error_bind, ok_bind]
        · rcases htt : tc.any isText with _ | _
          · rcases acol with _ | ac
            · simp [calculate_traffic_score_checked, getColumn_none,
                getColumn_some_ok _ hts, getColumn_some_ok _ htt, error_bind,
                ok_bind]
            · rcases hta : ac.any isText with _ | _
              · simp only [calculate_traffic_score_checked,
                  getColumn_some_ok _ hts, getColumn_some_ok _ htt,
                  getColumn_some_ok _ hta, ok_bind]
                simp [hts, htt, hta]
                exact ⟨by simpa using List.any_eq_false.mp hts,
                  by simpa using List.any_eq_false.mp htt,
                  by simpa using List.any_eq_false.mp hta⟩
              · simp [calculate_traffic_score_checked,
                  getColumn_some_ok _ hts, getColumn_some_ok _ htt,
                  getColumn_some_text _ hta, error_bind, ok_bind]
                exact Or.inr (Or.inr (List.any_eq_true.mp hta))
          · simp [calculate_traffic_score_checked, getColumn_some_ok _ hts,
              getColumn_some_text _ htt, error_bind, ok_bind]
            exact Or.inr (Or.inr (Or.inl (List.any_eq_true.mp htt)))
      · simp [calculate_traffic_score_checked, getColumn_some_text _ hts,
          error_bind]
        exact Or.inr (Or.inr (Or.inl (List.any_eq_true.mp hts)))
  · unfold pipeline
    split_ifs with h0
    · have h0' : reg = [] := List.length_eq_zero.1 h0
      simp [h0']
    · have h0' : reg ≠ [] := by
        intro hr
        subst hr
        exact h0 rfl
      simp [h0']

/-- C8 counterexample: a one-row frame whose speed cell is an empty (missing)
value scores without any failure — that row's 교통_환경_점수 is NaN — and an
empty frame does not fail either: the scoring function returns an empty
result and the script's guard shows a warning without invoking it. Both
contradict "fails with InvalidDataset exactly when the dataset is empty or a
required metric is missing for some row". -/
theorem C8_counterexample :
    calculate_traffic_score_checked
      ⟨["A"], some [Cell.na], some [Cell.num 5], some [Cell.num 3]⟩
      = Except.ok [none]
    ∧ calculate_traffic_score_checked ⟨[], some [], some [], some []⟩
      = Except.ok []
    ∧ pipeline ⟨[], some [], some [], some []⟩ = none := by
  refine ⟨?_, rfl, rfl⟩
  simp [calculate_traffic_score_checked, getColumn, isText, ok_bind,
    normAscCellRaw, weightedScore_none₁]

end Gimpo
